import Mathlib

/-!
# Verification of the moviebox-js-sdk request core and download engine

Shallow embedding of the resilient HTTP session (`src/session.ts`) and the
chunked download engine (`src/download.ts`) of the moviebox-js-sdk
repository, together with proofs about the embedded definitions.

Conventions of the embedding:
* JS numbers in the byte-range planner are natural numbers (all values in
  scope are non-negative integers well below 2^53, where JS arithmetic is
  exact).
* The injected HTTP transport (`fetch`) is modelled as a function from the
  global call index to an outcome (a response or a thrown network error);
  stateful code threads an explicit call counter and session state.
* Thrown JS errors become `Except` / explicit error results.

The file is organised as definitions first, theorems second.
-/

namespace MovieboxSdk

/-! ## Part 1: definitions -/

/-! ### Range planner (src/download.ts, `buildRanges`) -/

/-- Byte range with inclusive start and end offsets. Models the object
literal structure produced by `buildRanges` in the download engine; the source
field `end` is a Lean keyword, so it is named `stop` here. -/
structure ByteRange where
  start : Nat
  stop : Nat
deriving Repr, DecidableEq

/-- Fuel-indexed translation of the `while` loop in `buildRanges`
(src/download.ts):

```js
let offset = start;
while (offset < effectiveTotal) {
  const end = total ? Math.min(offset + chunkSize - 1, total - 1) : ...;
  ranges.push({ start: offset, end });
  if (total && end >= total - 1) break;
  offset += chunkSize;
}
```

for a known, positive `total` (inside the loop `offset < total`, so the JS
truthiness tests on `total` are all true there). `fuel` bounds the number of
iterations; each iteration advances `offset` by `chunkSize`, so when
`chunkSize ≥ 1` a fuel of `total - offset` is sufficient and the fuel bound
is never the reason the recursion stops. -/
def buildRangesGo (total chunkSize : Nat) : Nat → Nat → List ByteRange
  | _, 0 => []
  | offset, fuel + 1 =>
    if offset < total then
      let e := min (offset + chunkSize - 1) (total - 1)
      if total - 1 ≤ e then
        [⟨offset, e⟩]
      else
        ⟨offset, e⟩ :: buildRangesGo total chunkSize (offset + chunkSize) fuel
    else []

/-- `buildRanges(start, total, chunkSize)` from src/download.ts, for a known
total size. (When `total` is `undefined` the source loop compares against
`Infinity` and the `break` guard `total && end >= total - 1` can never fire,
so the loop does not terminate; no claim exercises that branch and it is not
modelled here — the download engine model returns `none` for it.) -/
def buildRanges (start total chunkSize : Nat) : List ByteRange :=
  buildRangesGo total chunkSize start (total - start)

/-- The increasing list of byte offsets covered by one range. -/
def rangeElems (r : ByteRange) : List Nat :=
  List.range' r.start (r.stop + 1 - r.start)

/-- The increasing list of byte offsets covered by a list of ranges, in
order. -/
def coveredOffsets : List ByteRange → List Nat
  | [] => []
  | r :: rs => rangeElems r ++ coveredOffsets rs

/-! ### JSON values and the error taxonomy -/

/-- JSON values, as produced by `JSON.parse`. Numbers are modelled as
integers: the only numeric field the session core inspects is the envelope
`code`, which is integral. -/
inductive Json where
  | null
  | bool (b : Bool)
  | num (n : Int)
  | str (s : String)
  | arr (elems : List Json)
  | obj (fields : List (String × Json))

/-- Field lookup on a JSON object (`payload.key`, with presence matching the
JS `key in payload` test); `none` for non-objects and missing keys. -/
def Json.getField? : Json → String → Option Json
  | .obj fields, key => (fields.find? (fun p => p.1 == key)).map (·.2)
  | _, _ => none

/-- The error taxonomy of src/errors.ts, plus `netError` standing for an
arbitrary error thrown by the transport (a rejected `fetch`). -/
inductive SessionError where
  | apiError (message : String)
  | httpError (message : String) (status : Nat) (url : String)
  | emptyResponse (url : String)
  | unsuccessfulResponse (url : String) (payload : Json)
  | geoBlocked (url : String) (status : Nat)
  | mirrorExhausted (failures : List (String × SessionError))
  | retryLimitExceeded (message : String) (attempts : Nat)
  | netError (message : String)

/-- The `message` property of each error class (src/errors.ts constructor
calls). -/
def SessionError.message : SessionError → String
  | .apiError m => m
  | .httpError m _ _ => m
  | .emptyResponse url => "Moviebox API returned an empty response for " ++ url
  | .unsuccessfulResponse url _ => "Moviebox API reported failure for " ++ url
  | .geoBlocked url _ =>
      "Moviebox content is not available in your region for " ++ url
  | .mirrorExhausted _ => "All Moviebox mirrors failed"
  | .retryLimitExceeded m _ => m
  | .netError m => m

/-- `error instanceof GeoBlockedError`. -/
def SessionError.isGeoBlocked : SessionError → Bool
  | .geoBlocked _ _ => true
  | _ => false

/-- `error instanceof MirrorExhaustedError`. -/
def SessionError.isMirrorExhausted : SessionError → Bool
  | .mirrorExhausted _ => true
  | _ => false

/-- `envelope.message === 'ok'` (strict string comparison). -/
def Json.isOkMessage (payload : Json) : Bool :=
  match payload.getField? "message" with
  | some (.str s) => s == "ok"
  | _ => false

/-- `unwrapEnvelope` from src/session.ts: a value that is an object with a
numeric `code` field is treated as an envelope; `code === 0` with
`message === 'ok'` and a present `data` key returns `data`, any other
envelope raises `UnsuccessfulResponseError` carrying the whole payload;
everything else passes through unchanged. -/
def unwrapEnvelope (payload : Json) (url : String) : Except SessionError Json :=
  match payload.getField? "code" with
  | some (.num code) =>
    if code = 0 ∧ payload.isOkMessage ∧ (payload.getField? "data").isSome then
      .ok ((payload.getField? "data").getD .null)
    else
      .error (.unsuccessfulResponse url payload)
  | _ => .ok payload

/-! ### The HTTP session (src/session.ts) -/

/-- An HTTP response as seen by the session: status, the request URL
(`response.url`), the repeatable `Set-Cookie` header values, and the body
text. -/
structure Resp where
  status : Nat
  url : String
  setCookies : List String
  body : String
deriving Repr, DecidableEq

/-- One outcome of a transport call: either a response, or a thrown error
(a rejected `fetch`). -/
inductive TransportOutcome where
  | response (status : Nat) (setCookies : List String) (body : String)
  | netError (message : String)
deriving Repr, DecidableEq

/-- The injected transport (`options.fetch`), modelled by the outcome of the
`n`-th call made through it, counting every call across mirrors, retries and
downloads. -/
structure Transport where
  outcome : Nat → TransportOutcome

/-- Per-attempt retry context handed to the retry predicates. -/
structure RetryContext where
  attempt : Nat
  maxAttempts : Nat
  url : String
  baseUrl : String

/-- The resolved retry policy (`this.retryPolicy`). `delayMs` only controls
wall-clock sleeping between attempts and has no other observable effect, so
the model carries it without using it. -/
structure RetryPolicyM where
  maxAttempts : Nat
  delayMs : Nat
  shouldRetryError : SessionError → RetryContext → Bool
  shouldRetryResponse : Resp → RetryContext → Bool

/-- Default error predicate: retry unless the error is geo-blocked or
mirror-exhausted. -/
def defaultShouldRetryError (e : SessionError) (_ : RetryContext) : Bool :=
  !(e.isGeoBlocked || e.isMirrorExhausted)

/-- Default response predicate: retry on status ≥ 500, 429 or 408. -/
def defaultShouldRetryResponse (r : Resp) (_ : RetryContext) : Bool :=
  if r.status ≥ 500 then true
  else if r.status = 429 || r.status = 408 then true
  else false

/-- A policy with the default predicates and a given number of total
attempts. -/
def defaultPolicyWith (maxAttempts : Nat) : RetryPolicyM :=
  ⟨maxAttempts, 200, defaultShouldRetryError, defaultShouldRetryResponse⟩

/-- The retry policy the constructor builds when no retry options are given:
`DEFAULT_MAX_RETRIES + 1 = 3` total attempts, 200ms delay, default
predicates. -/
def defaultRetryPolicy : RetryPolicyM := defaultPolicyWith 3

/-- Rendering of the `url.searchParams.set` calls, in insertion order. -/
def queryString : List (String × String) → String
  | [] => ""
  | ps => "?" ++ String.intercalate "&" (ps.map (fun p => p.1 ++ "=" ++ p.2))

/-- `buildUrl`: the fully qualified request URL. `new URL(path, root)` is
modelled as concatenation (base URLs end in `/`); the claims treat request
URLs as opaque identifiers, only ever comparing them for equality. -/
def buildUrl (baseUrl path : String) (params : List (String × String)) : String :=
  baseUrl ++ path ++ queryString params

/-- `Map.set`: update an existing key in place (keeping insertion order),
else append. Also the semantics of adding one key via JS object spread. -/
def assocSet (m : List (String × String)) (k v : String) :
    List (String × String) :=
  if m.any (fun p => p.1 == k) then
    m.map (fun p => if p.1 == k then (k, v) else p)
  else m ++ [(k, v)]

/-- `str.split(sep)` for a single-character separator, structurally over the
character list. (Lean core `String.splitOn` is defined by well-founded
recursion and does not reduce definitionally, so the model carries its own
equivalent; the separators used by the source, `;` and `=`, are single
characters.) -/
def splitCharsOn (sep : Char) : List Char → List (List Char)
  | [] => [[]]
  | c :: cs =>
    match splitCharsOn sep cs with
    | [] => [[]]
    | g :: gs => if c = sep then [] :: g :: gs else (c :: g) :: gs

/-- `str.split(sep)` on strings, single-character separator. -/
def splitStrOn (sep : Char) (s : String) : List String :=
  (splitCharsOn sep s.data).map String.mk

/-- JS `String.prototype.trim`, structurally (whitespace stripped from both
ends). -/
def trimStr (s : String) : String :=
  String.mk
    (((s.data.dropWhile Char.isWhitespace).reverse.dropWhile
      Char.isWhitespace).reverse)

/-- One `Set-Cookie` header value applied to the jar (the body of
`storeResponseCookies`): keep only the part before the first `;`, name is
before the first `=` (trimmed), value after (re-joined and trimmed); an empty
name is skipped and an empty value deletes the cookie. -/
def applySetCookie (jar : List (String × String)) (cookie : String) :
    List (String × String) :=
  match splitStrOn ';' cookie with
  | [] => jar
  | pair :: _ =>
    if pair = "" then jar
    else
      match splitStrOn '=' pair with
      | [] => jar
      | rawName :: rest =>
        let name := trimStr rawName
        let value := trimStr (String.intercalate "=" rest)
        if name = "" then jar
        else if value = "" then jar.filter (fun p => p.1 ≠ name)
        else assocSet jar name value

/-- `storeResponseCookies`: fold all `Set-Cookie` values into the jar. -/
def storeCookies (jar : List (String × String)) (r : Resp) :
    List (String × String) :=
  r.setCookies.foldl applySetCookie jar

/-- Mutable session state. The base-URL list is immutable after
construction; the cursor, the jar and the priming flag mutate. -/
structure SessionState where
  baseUrls : List String
  currentBaseIndex : Nat
  cookieJar : List (String × String)
  cookiesInitialized : Bool
deriving Repr, DecidableEq

/-- Result of the per-mirror retry sub-loop: a response or a thrown error,
with the transport call counter afterwards. -/
inductive AttemptOut where
  | ok (r : Resp) (calls : Nat)
  | err (e : SessionError) (calls : Nat)

/-- The code after the `while` loop of `attemptWithRetries`: a recorded
`lastError` becomes `RetryLimitExceededError(message, maxAttempts - 1)` when
the retry loop was enabled and more than one attempt was permitted, else it
is rethrown as is; with no recorded error a generic API error is raised. -/
def finishAttempts (skipRetryLoop : Bool) (maxAttempts : Nat)
    (lastError : Option SessionError) (calls : Nat) : AttemptOut :=
  match lastError with
  | some e =>
    if skipRetryLoop = false ∧ maxAttempts > 1 then
      .err (.retryLimitExceeded e.message (maxAttempts - 1)) calls
    else .err e calls
  | none => .err (.apiError "Unknown error while contacting Moviebox API") calls

/-- The `while (attempt < maxAttempts)` loop of `attemptWithRetries`, with
`remaining` iterations of fuel (initially `maxAttempts`) and `attemptPrev`
attempts already made. Direct translation of the loop body: a 451/403
response throws geo-blocked, which the catch block rethrows; any other
non-2xx response first consults the response predicate and, when it
declines, throws an HTTP error that the *same* catch block then offers to
the error predicate; a thrown error is retried while the error predicate
accepts and attempts remain, else the loop breaks with it as `lastError`. -/
def attemptLoop (pol : RetryPolicyM) (tr : Transport) (url baseUrl : String)
    (maxAttempts : Nat) (skipRetryLoop : Bool) :
    Nat → Nat → Nat → Option SessionError → AttemptOut
  | 0, _, calls, lastError =>
      finishAttempts skipRetryLoop maxAttempts lastError calls
  | remaining + 1, attemptPrev, calls, lastError =>
    let attempt := attemptPrev + 1
    let ctx : RetryContext := ⟨attempt, maxAttempts, url, baseUrl⟩
    match tr.outcome calls with
    | .response status setCookies body =>
      if status = 451 ∨ status = 403 then
        .err (.geoBlocked url status) (calls + 1)
      else if ¬ (200 ≤ status ∧ status ≤ 299) then
        if attempt < maxAttempts ∧
            pol.shouldRetryResponse ⟨status, url, setCookies, body⟩ ctx then
          attemptLoop pol tr url baseUrl maxAttempts skipRetryLoop
            remaining attempt (calls + 1) lastError
        else
          if attempt < maxAttempts ∧
              pol.shouldRetryError
                (.httpError ("Moviebox API request failed with status " ++
                  toString status) status url) ctx then
            attemptLoop pol tr url baseUrl maxAttempts skipRetryLoop
              remaining attempt (calls + 1)
              (some (.httpError ("Moviebox API request failed with status " ++
                toString status) status url))
          else
            finishAttempts skipRetryLoop maxAttempts
              (some (.httpError ("Moviebox API request failed with status " ++
                toString status) status url)) (calls + 1)
      else .ok ⟨status, url, setCookies, body⟩ (calls + 1)
    | .netError msg =>
      if attempt < maxAttempts ∧ pol.shouldRetryError (.netError msg) ctx then
        attemptLoop pol tr url baseUrl maxAttempts skipRetryLoop
          remaining attempt (calls + 1) (some (.netError msg))
      else
        finishAttempts skipRetryLoop maxAttempts (some (.netError msg)) (calls + 1)

/-- `attemptWithRetries` from src/session.ts: run the retry sub-loop against
one base URL; with `skipRetryLoop` only one attempt is permitted. -/
def attemptWithRetries (pol : RetryPolicyM) (tr : Transport) (path : String)
    (params : List (String × String)) (baseUrl : String)
    (skipRetryLoop : Bool) (calls : Nat) : AttemptOut :=
  let maxAttempts := if skipRetryLoop then 1 else pol.maxAttempts
  attemptLoop pol tr (buildUrl baseUrl path params) baseUrl maxAttempts
    skipRetryLoop maxAttempts 0 calls none

/-- Result of `performRequest`: the response or terminal error, the
(possibly) mutated session state, and the call counter afterwards. -/
structure ReqOut where
  result : Except SessionError Resp
  state : SessionState
  calls : Nat

/-- The mirror loop of `performRequest`: `pending` is the list of base-URL
indices still to try, in attempt order `(currentBaseIndex + offset) % N`.
A geo-blocked sub-loop failure propagates immediately; any other failure is
recorded as `{url, error}` and the next mirror is tried; on success the
cursor advances (unless suppressed) and cookies are captured. -/
def mirrorLoop (pol : RetryPolicyM) (tr : Transport) (path : String)
    (params : List (String × String))
    (skipMirrorAdvance skipRetryLoop captureCookies : Bool)
    (st : SessionState) :
    List Nat → List (String × SessionError) → Nat → ReqOut
  | [], failures, calls => ⟨.error (.mirrorExhausted failures), st, calls⟩
  | idx :: rest, failures, calls =>
    let baseUrl := st.baseUrls.getD idx ""
    match attemptWithRetries pol tr path params baseUrl skipRetryLoop calls with
    | .ok r calls2 =>
      let st2 := if skipMirrorAdvance then st
                 else { st with currentBaseIndex := idx }
      let st3 := if captureCookies then
                   { st2 with cookieJar := storeCookies st2.cookieJar r }
                 else st2
      ⟨.ok r, st3, calls2⟩
    | .err e calls2 =>
      if e.isGeoBlocked then ⟨.error e, st, calls2⟩
      else
        mirrorLoop pol tr path params skipMirrorAdvance skipRetryLoop
          captureCookies st rest
          (failures ++ [(buildUrl baseUrl path params, e)]) calls2

/-- `performRequest`: scan every mirror once, starting at the cursor and
wrapping around. -/
def performRequest (pol : RetryPolicyM) (tr : Transport) (path : String)
    (params : List (String × String))
    (skipMirrorAdvance skipRetryLoop captureCookies : Bool)
    (st : SessionState) (calls : Nat) : ReqOut :=
  mirrorLoop pol tr path params skipMirrorAdvance skipRetryLoop captureCookies
    st
    ((List.range st.baseUrls.length).map
      (fun off => (st.currentBaseIndex + off) % st.baseUrls.length))
    [] calls

/-- Result of `ensureSessionCookies`. -/
structure EnsureOut where
  result : Except SessionError Bool
  state : SessionState
  calls : Nat

def APP_INFO_PATH : String := "/wefeed-h5-bff/app/get-latest-app-pkgs"

/-- `ensureSessionCookies` from src/session.ts: once initialized, report
whether the jar is non-empty without any request; otherwise issue the
priming request with control flags `{ skipMirrorAdvance: false,
skipRetryLoop: false }` (both explicitly false in the source), drain the
body, set the flag, and report jar non-emptiness. An error from the priming
request propagates and leaves the flag unset. -/
def ensureSessionCookies (pol : RetryPolicyM) (tr : Transport)
    (st : SessionState) (calls : Nat) : EnsureOut :=
  if st.cookiesInitialized then ⟨.ok (!st.cookieJar.isEmpty), st, calls⟩
  else
    let out := performRequest pol tr APP_INFO_PATH [("app_name", "moviebox")]
      false false true st calls
    match out.result with
    | .ok _ =>
      ⟨.ok (!out.state.cookieJar.isEmpty),
       { out.state with cookiesInitialized := true }, out.calls⟩
    | .error e => ⟨.error e, out.state, out.calls⟩

/-! ### The download engine (src/download.ts) -/

/-- Download modes. -/
inductive DownloadMode where
  | overwrite
  | resume
  | auto
deriving Repr, DecidableEq

def DEFAULT_CHUNK_SIZE : Nat := 4 * 1024 * 1024

/-- Default CDN headers required for download requests (`DOWNLOAD_HEADERS`). -/
def DOWNLOAD_HEADERS : List (String × String) :=
  [("Referer", "https://fmoviesunblocked.net/")]

/-- JS object spread `{...base, ...overlay}` restricted to string values:
later keys override earlier ones, insertion order otherwise preserved. -/
def spreadInto (base overlay : List (String × String)) :
    List (String × String) :=
  overlay.foldl (fun acc p => assocSet acc p.1 p.2) base

/-- The effective value of key `k` in a JS object built from these
key/value insertions in order (the last write wins). -/
def recordGet : List (String × String) → String → Option String
  | [], _ => none
  | p :: ps, k =>
    match recordGet ps k with
    | some v => some v
    | none => if p.1 == k then some p.2 else none

/-- Headers of one chunk request:
`{ Range: bytes=start-end, ...downloadHeaders }` where `downloadHeaders`
is `{...DOWNLOAD_HEADERS, ...userHeaders}` computed once per download. -/
def chunkRequestHeaders (downloadHeaders : List (String × String))
    (r : ByteRange) : List (String × String) :=
  spreadInto
    [("Range", "bytes=" ++ toString r.start ++ "-" ++ toString r.stop)]
    downloadHeaders

/-- One outgoing range request issued by a download worker. -/
structure ChunkRequest where
  url : String
  headers : List (String × String)

/-- Result of `downloadMediaFile`: outcome, session state, transport call
counter, and the ordered trace of issued chunk requests. -/
structure DownloadOut where
  result : Except SessionError Unit
  state : SessionState
  calls : Nat
  chunkRequests : List ChunkRequest

/-- Worker execution over the shared FIFO range queue, modelled as the
sequential schedule: under the cooperative event-loop model each range is
dequeued exactly once and produces exactly one GET carrying these headers,
whatever the worker count, so the request trace is that of one worker. Each
dequeued range issues one request; a response status other than 200/206
aborts the whole download; a transport throw propagates. Body streaming and
positional file writes do not influence the request trace and are not
modelled. -/
def runChunkQueue (tr : Transport) (url : String)
    (downloadHeaders : List (String × String)) :
    List ByteRange → Nat → List ChunkRequest →
      Except SessionError Unit × Nat × List ChunkRequest
  | [], calls, acc => (.ok (), calls, acc)
  | r :: rest, calls, acc =>
    match tr.outcome calls with
    | .response status _ _ =>
      if status ≠ 206 ∧ status ≠ 200 then
        (.error (.apiError ("Unexpected status " ++ toString status ++
            " for range download.")), calls + 1,
         acc ++ [⟨url, chunkRequestHeaders downloadHeaders r⟩])
      else
        runChunkQueue tr url downloadHeaders rest (calls + 1)
          (acc ++ [⟨url, chunkRequestHeaders downloadHeaders r⟩])
    | .netError msg =>
      (.error (.netError msg), calls + 1,
       acc ++ [⟨url, chunkRequestHeaders downloadHeaders r⟩])

/-- The `startOffset` computation of `downloadMediaFile`:
`mode === 'resume' ? existingSize : 0`. -/
def startOffsetFor (mode : DownloadMode) (existingSize : Nat) : Nat :=
  if mode = .resume then existingSize else 0

/-- The auto-mode completion test
`mode === 'auto' && targetSize !== undefined && existingSize >= targetSize`
(size part). -/
def autoComplete (sizeBytes : Option Nat) (existing : Nat) : Bool :=
  match sizeBytes with
  | some t => decide (t ≤ existing)
  | none => false

/-- `downloadMediaFile` from src/download.ts. The destination file is
modelled by its current size (`existingSize`, as reported by `stat`; opening
with `w+` in overwrite mode truncates it to zero). The chunk size is clamped
to at least 256 KiB, exactly as in the source. The output is `none` when the
source does not terminate, which happens exactly when it reaches
`buildRanges` with an unknown total size. -/
def downloadMediaFile (pol : RetryPolicyM) (tr : Transport)
    (st : SessionState) (calls : Nat) (optionUrl : Option String)
    (sizeBytes : Option Nat) (existingSize : Nat) (mode : DownloadMode)
    (chunkSizeOpt : Option Nat) (userHeaders : List (String × String)) :
    Option DownloadOut :=
  match optionUrl with
  | none =>
    some ⟨.error (.apiError "Download option does not include a URL."),
          st, calls, []⟩
  | some url =>
    let chunkSize := max (256 * 1024) (chunkSizeOpt.getD DEFAULT_CHUNK_SIZE)
    let downloadHeaders := spreadInto DOWNLOAD_HEADERS userHeaders
    let eo := ensureSessionCookies pol tr st calls
    match eo.result with
    | .error e => some ⟨.error e, eo.state, eo.calls, []⟩
    | .ok _ =>
      let existingSize2 := if mode = .overwrite then 0 else existingSize
      if mode = .resume ∧ existingSize2 = 0 then
        some ⟨.error (.apiError "No partial download found to resume."),
              eo.state, eo.calls, []⟩
      else if mode = .auto ∧ autoComplete sizeBytes existingSize2 then
        some ⟨.ok (), eo.state, eo.calls, []⟩
      else
        match sizeBytes with
        | none => none
        | some t =>
          let ranges := buildRanges (startOffsetFor mode existingSize2) t chunkSize
          if ranges = [] then some ⟨.ok (), eo.state, eo.calls, []⟩
          else
            match runChunkQueue tr url downloadHeaders ranges eo.calls [] with
            | (res, calls2, reqs) => some ⟨res, eo.state, calls2, reqs⟩

/-! ### Concrete fixtures used by counterexamples and witnesses -/

/-- Transport that always answers HTTP 404 with an empty body. -/
def tr404 : Transport := ⟨fun _ => .response 404 [] ""⟩

/-- Transport that always answers HTTP 200 with an empty body. -/
def trOk : Transport := ⟨fun _ => .response 200 [] ""⟩

/-- Transport that always answers HTTP 206 with an empty body. -/
def tr206 : Transport := ⟨fun _ => .response 206 [] ""⟩

/-- Transport that always answers HTTP 451. -/
def tr451 : Transport := ⟨fun _ => .response 451 [] ""⟩

/-- Transport that always throws a network error. -/
def trDown : Transport := ⟨fun _ => .netError "network failure"⟩

/-- Transport whose first call throws, and which then answers HTTP 200 with
a `Set-Cookie` header. -/
def trPrimeSecond : Transport :=
  ⟨fun n => if n = 0 then .netError "down"
            else .response 200 ["sid=abc; Path=/"] ""⟩

/-- The response `trPrimeSecond` serves on its second call, as seen from the
second mirror of `stTwoMirrors`. -/
def respPrime : Resp :=
  ⟨200, buildUrl "https://b/" APP_INFO_PATH [("app_name", "moviebox")],
   ["sid=abc; Path=/"], ""⟩

/-- A policy with the default predicates and a single permitted attempt. -/
def polOneAttempt : RetryPolicyM := defaultPolicyWith 1

/-- Fresh two-mirror session state (cursor 0, empty jar, not primed). -/
def stTwoMirrors : SessionState := ⟨["https://a/", "https://b/"], 0, [], false⟩

/-- Fresh one-mirror session state (not primed). -/
def stFresh : SessionState := ⟨["https://a/"], 0, [], false⟩

/-- One-mirror session state whose cookies are already initialized. -/
def stInit : SessionState := ⟨["https://a/"], 0, [], true⟩

/-! ## Part 2: theorems -/

/-! ### Range planner lemmas -/

example : buildRanges 0 10 3 = [⟨0, 2⟩, ⟨3, 5⟩, ⟨6, 8⟩, ⟨9, 9⟩] := by decide
example : buildRanges 4 10 3 = [⟨4, 6⟩, ⟨7, 9⟩] := by decide
example : buildRanges 10 10 3 = [] := by decide
example : buildRanges 0 0 3 = [] := by decide

theorem buildRangesGo_fuel_zero (total c offset : Nat) :
    buildRangesGo total c offset 0 = [] := rfl

theorem buildRangesGo_not_lt (total c : Nat) (fuel offset : Nat)
    (h : ¬ offset < total) : buildRangesGo total c offset fuel = [] := by
  cases fuel with
  | zero => rfl
  | succ fuel => simp [buildRangesGo, h]

theorem buildRangesGo_head (total c : Nat) :
    ∀ fuel offset r, (buildRangesGo total c offset fuel).head? = some r →
      r.start = offset := by
  intro fuel offset r h
  cases fuel with
  | zero => simp [buildRangesGo] at h
  | succ fuel =>
    by_cases ho : offset < total
    · simp only [buildRangesGo, if_pos ho] at h
      by_cases he : total - 1 ≤ min (offset + c - 1) (total - 1) <;>
        simp [he] at h <;> simp [← h]
    · simp [buildRangesGo, ho] at h

theorem buildRangesGo_covered (total c : Nat) (hc : 0 < c) :
    ∀ fuel offset, total ≤ offset + fuel →
      coveredOffsets (buildRangesGo total c offset fuel) =
        List.range' offset (total - offset) := by
  intro fuel
  induction fuel with
  | zero =>
    intro offset h
    have h0 : total - offset = 0 := by omega
    simp [buildRangesGo, coveredOffsets, h0]
  | succ fuel ih =>
    intro offset h
    by_cases ho : offset < total
    · simp only [buildRangesGo, if_pos ho]
      by_cases he : total - 1 ≤ min (offset + c - 1) (total - 1)
      · have hmin : min (offset + c - 1) (total - 1) = total - 1 := by omega
        have hn : total - 1 + 1 - offset = total - offset := by omega
        simp [he, coveredOffsets, rangeElems, hmin, hn]
      · have hmin : min (offset + c - 1) (total - 1) = offset + c - 1 := by omega
        have hlt : offset + c < total := by omega
        rw [if_neg he]
        simp only [coveredOffsets, rangeElems, hmin]
        rw [ih (offset + c) (by omega)]
        have hsz : offset + c - 1 + 1 - offset = c := by omega
        rw [hsz]
        have := List.range'_append_1 offset c (total - (offset + c))
        rw [this]
        congr 1
        omega
    · have h0 : total - offset = 0 := by omega
      simp [buildRangesGo_not_lt total c _ _ ho, coveredOffsets, h0]

theorem buildRangesGo_sizes (total c : Nat) (hc : 0 < c) :
    ∀ fuel offset, total ≤ offset + fuel →
      ∀ r ∈ buildRangesGo total c offset fuel,
        r.start ≤ r.stop ∧ r.stop + 1 - r.start ≤ c := by
  intro fuel
  induction fuel with
  | zero => intro offset _ r hr; simp [buildRangesGo] at hr
  | succ fuel ih =>
    intro offset h r hr
    by_cases ho : offset < total
    · simp only [buildRangesGo, if_pos ho] at hr
      by_cases he : total - 1 ≤ min (offset + c - 1) (total - 1)
      · have hmin : min (offset + c - 1) (total - 1) = total - 1 := by omega
        have hce : total ≤ offset + c := by omega
        simp [he, hmin] at hr
        subst hr
        constructor <;> simp <;> omega
      · have hmin : min (offset + c - 1) (total - 1) = offset + c - 1 := by omega
        simp only [if_neg he, List.mem_cons] at hr
        rcases hr with hr | hr
        · subst hr
          constructor <;> simp [hmin] <;> omega
        · exact ih (offset + c) (by omega) r hr
    · simp [buildRangesGo_not_lt total c _ _ ho] at hr

theorem buildRangesGo_start_le (total c : Nat) :
    ∀ fuel offset, ∀ r ∈ buildRangesGo total c offset fuel, offset ≤ r.start := by
  intro fuel
  induction fuel with
  | zero => intro offset r hr; simp [buildRangesGo] at hr
  | succ fuel ih =>
    intro offset r hr
    by_cases ho : offset < total
    · simp only [buildRangesGo, if_pos ho] at hr
      by_cases he : total - 1 ≤ min (offset + c - 1) (total - 1)
      · simp [he] at hr; subst hr; simp
      · simp only [if_neg he, List.mem_cons] at hr
        rcases hr with hr | hr
        · subst hr; simp
        · have := ih (offset + c) r hr
          omega
    · simp [buildRangesGo_not_lt total c _ _ ho] at hr

theorem buildRangesGo_chain (total c : Nat) (hc : 0 < c) :
    ∀ fuel offset,
      List.Chain' (fun a b : ByteRange => b.start = a.stop + 1)
        (buildRangesGo total c offset fuel) := by
  intro fuel
  induction fuel with
  | zero => intro offset; simp [buildRangesGo]
  | succ fuel ih =>
    intro offset
    by_cases ho : offset < total
    · simp only [buildRangesGo, if_pos ho]
      by_cases he : total - 1 ≤ min (offset + c - 1) (total - 1)
      · simp [he]
      · have hmin : min (offset + c - 1) (total - 1) = offset + c - 1 := by omega
        simp only [if_neg he]
        rw [List.chain'_cons']
        refine ⟨?_, ih (offset + c)⟩
        intro b hb
        have hstart := buildRangesGo_head total c fuel (offset + c) b hb
        simp [hstart, hmin]
        omega
    · simp [buildRangesGo_not_lt total c _ _ ho]

theorem buildRangesGo_pairwise (total c : Nat) (hc : 0 < c) :
    ∀ fuel offset,
      List.Pairwise (fun a b : ByteRange => a.stop < b.start)
        (buildRangesGo total c offset fuel) := by
  intro fuel
  induction fuel with
  | zero => intro offset; simp [buildRangesGo]
  | succ fuel ih =>
    intro offset
    by_cases ho : offset < total
    · simp only [buildRangesGo, if_pos ho]
      by_cases he : total - 1 ≤ min (offset + c - 1) (total - 1)
      · simp [he]
      · have hmin : min (offset + c - 1) (total - 1) = offset + c - 1 := by omega
        simp only [if_neg he]
        refine List.pairwise_cons.mpr ⟨?_, ih (offset + c)⟩
        intro b hb
        have := buildRangesGo_start_le total c fuel (offset + c) b hb
        simp [hmin]
        omega
    · simp [buildRangesGo_not_lt total c _ _ ho]

theorem buildRanges_empty_of_ge (s t c : Nat) (h : t ≤ s) :
    buildRanges s t c = [] := by
  have h0 : t - s = 0 := by omega
  simp [buildRanges, h0, buildRangesGo_fuel_zero]

/-- C3: for every `startOffset`, known `totalSize` and positive `chunkSize`,
`buildRanges` returns ranges that are contiguous (each start is the previous
end plus one), non-overlapping and strictly increasing, each at most
`chunkSize` bytes, and that collectively cover exactly
`[startOffset, totalSize)`; it returns `[]` whenever `startOffset ≥
totalSize`, and on the concrete spec examples it yields the listed tilings. -/
theorem c3_buildRanges_tiling (s t c : Nat) (hc : 0 < c) :
    coveredOffsets (buildRanges s t c) = List.range' s (t - s) ∧
    List.Chain' (fun a b : ByteRange => b.start = a.stop + 1) (buildRanges s t c) ∧
    List.Pairwise (fun a b : ByteRange => a.stop < b.start) (buildRanges s t c) ∧
    (∀ r ∈ buildRanges s t c, r.start ≤ r.stop ∧ r.stop + 1 - r.start ≤ c) ∧
    (t ≤ s → buildRanges s t c = []) ∧
    buildRanges 0 10 3 = [⟨0, 2⟩, ⟨3, 5⟩, ⟨6, 8⟩, ⟨9, 9⟩] ∧
    buildRanges 4 10 3 = [⟨4, 6⟩, ⟨7, 9⟩] ∧
    buildRanges 10 10 3 = [] := by
  refine ⟨buildRangesGo_covered t c hc (t - s) s (by omega),
    buildRangesGo_chain t c hc (t - s) s,
    buildRangesGo_pairwise t c hc (t - s) s,
    buildRangesGo_sizes t c hc (t - s) s (by omega),
    fun h => buildRanges_empty_of_ge s t c h,
    by decide, by decide, by decide⟩

/-- Witness for `c3_buildRanges_tiling` at `s = 0`, `t = 10`, `c = 3`. -/
theorem c3_buildRanges_tiling_witness :
    coveredOffsets (buildRanges 0 10 3) = List.range' 0 (10 - 0) ∧
    List.Chain' (fun a b : ByteRange => b.start = a.stop + 1)
      (buildRanges 0 10 3) :=
  ⟨(c3_buildRanges_tiling 0 10 3 (by decide)).1,
   (c3_buildRanges_tiling 0 10 3 (by decide)).2.1⟩

/-! ### Envelope unwrapping -/

/-- C8: envelope unwrapping. An object with numeric `code` equal to `0` and
`message` equal to `"ok"` yields its `data` field; an object with a numeric
`code` other than `0` raises the unsuccessful-envelope error carrying the
full payload; any value without a numeric `code` field passes through
unchanged. -/
theorem c8_unwrapEnvelope_cases (url : String) :
    (∀ payload d, Json.getField? payload "code" = some (.num 0) →
        Json.getField? payload "message" = some (.str "ok") →
        Json.getField? payload "data" = some d →
        unwrapEnvelope payload url = .ok d) ∧
    (∀ payload code, Json.getField? payload "code" = some (.num code) →
        code ≠ 0 →
        unwrapEnvelope payload url =
          .error (.unsuccessfulResponse url payload)) ∧
    (∀ payload, (∀ code, Json.getField? payload "code" ≠ some (.num code)) →
        unwrapEnvelope payload url = .ok payload) := by
  refine ⟨?_, ?_, ?_⟩
  · intro payload d hcode hmsg hdata
    simp [unwrapEnvelope, hcode, hmsg, hdata, Json.isOkMessage]
  · intro payload code hcode hne
    simp [unwrapEnvelope, hcode, hne]
  · intro payload hnone
    unfold unwrapEnvelope
    rcases h : Json.getField? payload "code" with _ | j
    · rfl
    · cases j with
      | num n => exact absurd h (hnone n)
      | null => rfl
      | bool b => rfl
      | str s => rfl
      | arr elems => rfl
      | obj fields => rfl

/-- Witness for `c8_unwrapEnvelope_cases`: the spec examples
`{"code":0,"message":"ok","data":{"x":1}}` unwraps to `{"x":1}` and
`{"code":7}` raises the unsuccessful-envelope error; a bare array passes
through. -/
theorem c8_unwrapEnvelope_cases_witness :
    unwrapEnvelope
        (.obj [("code", .num 0), ("message", .str "ok"),
               ("data", .obj [("x", .num 1)])]) "u" =
      .ok (.obj [("x", .num 1)]) ∧
    unwrapEnvelope (.obj [("code", .num 7), ("message", .str "fail")]) "u" =
      .error (.unsuccessfulResponse "u"
        (.obj [("code", .num 7), ("message", .str "fail")])) ∧
    unwrapEnvelope (.arr [.num 3]) "u" = .ok (.arr [.num 3]) := by
  refine ⟨?_, ?_, ?_⟩
  · exact (c8_unwrapEnvelope_cases "u").1 _ _ rfl rfl rfl
  · exact (c8_unwrapEnvelope_cases "u").2.1 _ 7 rfl (by decide)
  · exact (c8_unwrapEnvelope_cases "u").2.2 _
      (fun code h => by simp [Json.getField?] at h)

/-! ### Geo-block short-circuit (C4) -/

/-- C4: a 451 (or 403) response observed by any attempt of the retry
sub-loop makes that sub-loop fail at once with a geo-blocked error carrying
the status and the request URL, after exactly one more transport call (no
retry is consumed); and a geo-blocked sub-loop failure makes the whole
request fail with that very error immediately — the remaining mirrors are
not tried and the session state is untouched. -/
theorem c4_geo_short_circuit :
    (∀ (pol : RetryPolicyM) (tr : Transport) (url baseUrl : String)
        (maxAttempts : Nat) (srl : Bool)
        (remaining attemptPrev calls : Nat) (lastError : Option SessionError)
        (status : Nat) (sc : List String) (b : String),
        tr.outcome calls = .response status sc b →
        status = 451 ∨ status = 403 →
        attemptLoop pol tr url baseUrl maxAttempts srl
            (remaining + 1) attemptPrev calls lastError =
          .err (.geoBlocked url status) (calls + 1)) ∧
    (∀ (pol : RetryPolicyM) (tr : Transport) (path : String)
        (params : List (String × String)) (sma srl cap : Bool)
        (st : SessionState) (idx : Nat) (rest : List Nat)
        (failures : List (String × SessionError)) (calls : Nat)
        (e : SessionError) (calls2 : Nat),
        attemptWithRetries pol tr path params (st.baseUrls.getD idx "") srl
            calls = .err e calls2 →
        e.isGeoBlocked = true →
        mirrorLoop pol tr path params sma srl cap st (idx :: rest) failures
            calls = ⟨.error e, st, calls2⟩) := by
  constructor
  · intro pol tr url baseUrl maxAttempts srl remaining attemptPrev calls
      lastError status sc b hout hgeo
    simp only [attemptLoop, hout]
    rw [if_pos hgeo]
  · intro pol tr path params sma srl cap st idx rest failures calls e calls2
      hatt hgeo
    simp only [mirrorLoop, hatt, hgeo, if_true]

/-- Witness for `c4_geo_short_circuit`: a 451 on the first mirror of a
two-mirror session ends the sub-loop and the whole request at once. -/
theorem c4_geo_short_circuit_witness :
    attemptLoop defaultRetryPolicy tr451 "https://a/x" "https://a/" 3 false
        3 0 0 none = .err (.geoBlocked "https://a/x" 451) 1 ∧
    mirrorLoop defaultRetryPolicy tr451 "/x" [] false false true stTwoMirrors
        [0, 1] [] 0 =
      ⟨.error (.geoBlocked (buildUrl "https://a/" "/x" []) 451),
       stTwoMirrors, 1⟩ := by
  constructor
  · exact c4_geo_short_circuit.1 defaultRetryPolicy tr451 "https://a/x"
      "https://a/" 3 false 2 0 0 none 451 [] "" rfl (Or.inl rfl)
  · exact c4_geo_short_circuit.2 defaultRetryPolicy tr451 "/x" [] false false
      true stTwoMirrors 0 [1] [] 0
      (.geoBlocked (buildUrl "https://a/" "/x" []) 451) 1 rfl rfl

/-! ### Mirror exhaustion (C5) -/

/-- If the sub-loop fails without geo-blocking on every pending mirror, the
mirror loop ends in a mirror-exhausted error whose failure list extends the
accumulator by exactly one `{url, error}` entry per pending mirror, in
order, and the session state is unchanged. -/
theorem mirrorLoop_exhausted (pol : RetryPolicyM) (tr : Transport)
    (path : String) (params : List (String × String)) (sma srl cap : Bool)
    (st : SessionState) :
    ∀ pending : List Nat,
      (∀ idx ∈ pending, ∀ cc : Nat, ∃ e calls2,
          attemptWithRetries pol tr path params (st.baseUrls.getD idx "") srl
              cc = .err e calls2 ∧ e.isGeoBlocked = false) →
      ∀ (failures : List (String × SessionError)) (calls : Nat),
        ∃ fs calls2,
          mirrorLoop pol tr path params sma srl cap st pending failures
              calls =
            ⟨.error (.mirrorExhausted (failures ++ fs)), st, calls2⟩ ∧
          fs.map Prod.fst =
            pending.map
              (fun idx => buildUrl (st.baseUrls.getD idx "") path params) := by
  intro pending
  induction pending with
  | nil =>
    intro _ failures calls
    exact ⟨[], calls, by simp [mirrorLoop], by simp⟩
  | cons idx rest ih =>
    intro hfail failures calls
    obtain ⟨e, calls2, hatt, hgeo⟩ := hfail idx (by simp) calls
    obtain ⟨fs, calls3, hrec, hmap⟩ :=
      ih (fun j hj cc => hfail j (by simp [hj]) cc)
        (failures ++ [(buildUrl (st.baseUrls.getD idx "") path params, e)])
        calls2
    refine ⟨(buildUrl (st.baseUrls.getD idx "") path params, e) :: fs,
      calls3, ?_, ?_⟩
    · simp only [mirrorLoop, hatt, hgeo, Bool.false_eq_true, if_false]
      rw [hrec]
      simp
    · simp [hmap]

/-- C5: when every mirror fails its retry sub-loop without a geo-block, the
request fails with a mirror-exhausted error whose failure list has exactly
one `{url, error}` entry per configured base URL, listed in exactly the
attempted order (starting at the mirror cursor and wrapping around once),
and the session state stays unchanged. -/
theorem c5_mirror_exhaustion (pol : RetryPolicyM) (tr : Transport)
    (path : String) (params : List (String × String)) (sma srl cap : Bool)
    (st : SessionState) (calls : Nat)
    (hfail : ∀ idx cc, ∃ e calls2,
        attemptWithRetries pol tr path params (st.baseUrls.getD idx "") srl
            cc = .err e calls2 ∧ e.isGeoBlocked = false) :
    ∃ fs calls2,
      performRequest pol tr path params sma srl cap st calls =
        ⟨.error (.mirrorExhausted fs), st, calls2⟩ ∧
      fs.length = st.baseUrls.length ∧
      fs.map Prod.fst =
        (List.range st.baseUrls.length).map (fun off =>
          buildUrl
            (st.baseUrls.getD
              ((st.currentBaseIndex + off) % st.baseUrls.length) "")
            path params) := by
  obtain ⟨fs, calls2, hrun, hmap⟩ :=
    mirrorLoop_exhausted pol tr path params sma srl cap st
      ((List.range st.baseUrls.length).map
        (fun off => (st.currentBaseIndex + off) % st.baseUrls.length))
      (fun idx _ cc => hfail idx cc) [] calls
  refine ⟨fs, calls2, ?_, ?_, ?_⟩
  · simpa [performRequest] using hrun
  · have hlen := congrArg List.length hmap
    simpa using hlen
  · rw [hmap, List.map_map]
    rfl

/-- Witness for `c5_mirror_exhaustion`: two mirrors, a transport that always
throws, one permitted attempt per mirror. -/
theorem c5_mirror_exhaustion_witness :
    ∃ fs calls2,
      performRequest polOneAttempt trDown "/resource" [] false false true
          stTwoMirrors 0 =
        ⟨.error (.mirrorExhausted fs), stTwoMirrors, calls2⟩ ∧
      fs.length = stTwoMirrors.baseUrls.length ∧
      fs.map Prod.fst =
        (List.range stTwoMirrors.baseUrls.length).map (fun off =>
          buildUrl
            (stTwoMirrors.baseUrls.getD
              ((stTwoMirrors.currentBaseIndex + off) %
                stTwoMirrors.baseUrls.length) "")
            "/resource" []) :=
  c5_mirror_exhaustion polOneAttempt trDown "/resource" [] false false true
    stTwoMirrors 0
    (fun _ cc => ⟨.netError "network failure", cc + 1, rfl, rfl⟩)

/-! ### Non-retryable non-2xx responses (C2) -/

/-- The default response predicate declines every status below 500 other
than 429 and 408. -/
theorem defaultShouldRetryResponse_declines (r : Resp) (ctx : RetryContext)
    (h : r.status < 500 ∧ r.status ≠ 429 ∧ r.status ≠ 408) :
    defaultShouldRetryResponse r ctx = false := by
  unfold defaultShouldRetryResponse
  rw [if_neg (by omega)]
  rw [if_neg (by simp [h.2.1, h.2.2])]

/-- The default error predicate retries every HTTP error. -/
theorem defaultShouldRetryError_httpError (msg : String) (status : Nat)
    (url : String) (ctx : RetryContext) :
    defaultShouldRetryError (.httpError msg status url) ctx = true := rfl

/-- In the retry sub-loop with the default predicates, a constant non-2xx,
non-geo status that the response predicate declines is thrown as an HTTP
error, caught by the same loop, retried by the default error predicate while
attempts remain, and finally handed to the after-loop code, with one
transport call per remaining attempt. -/
theorem attemptLoop_default_nonretry_status (m : Nat) (tr : Transport)
    (url baseUrl : String) (status : Nat) (sc : List String) (b : String)
    (hresp : ∀ n, tr.outcome n = .response status sc b)
    (hngeo : ¬(status = 451 ∨ status = 403))
    (hn2xx : ¬(200 ≤ status ∧ status ≤ 299))
    (hdecl : status < 500 ∧ status ≠ 429 ∧ status ≠ 408) :
    ∀ remaining attemptPrev calls lastError, 0 < remaining →
      remaining + attemptPrev = m →
      attemptLoop (defaultPolicyWith m) tr url baseUrl m false remaining
          attemptPrev calls lastError =
        finishAttempts false m
          (some (.httpError
            ("Moviebox API request failed with status " ++ toString status)
            status url))
          (calls + remaining) := by
  intro remaining
  induction remaining with
  | zero => intro _ _ _ h0 _; omega
  | succ k ih =>
    intro attemptPrev calls lastError _ hsum
    simp only [attemptLoop, hresp]
    rw [if_neg hngeo, if_pos hn2xx]
    rw [if_neg (by
      rintro ⟨-, hb⟩
      have hb2 : defaultShouldRetryResponse ⟨status, url, sc, b⟩
          ⟨attemptPrev + 1, m, url, baseUrl⟩ = true := hb
      rw [defaultShouldRetryResponse_declines _ _ hdecl] at hb2
      exact absurd hb2 (by simp))]
    by_cases hk : 0 < k
    · rw [if_pos ⟨by omega, rfl⟩]
      rw [ih (attemptPrev + 1) (calls + 1) _ hk (by omega)]
      have hce : calls + 1 + k = calls + (k + 1) := by omega
      rw [hce]
    · have hk0 : k = 0 := by omega
      subst hk0
      rw [if_neg (by rintro ⟨hlt, -⟩; omega)]

/-- C2, amended: in the retry sub-loop with the default predicates, a
response whose status is non-2xx, not 451/403, and declined by the response
predicate (e.g. 404) is thrown as an HTTP error carrying the status and the
request URL, but that error is caught by the same loop and offered to the
*error* predicate, which by default retries it; the sub-loop keeps
attempting until attempts are exhausted, making one transport call per
permitted attempt, and its terminal outcome for the mirror is the raw HTTP
error only when a single attempt was permitted, otherwise a
retry-limit-exceeded error preserving the HTTP error message and reporting
`maxAttempts - 1` attempts. -/
theorem c2_amended_nonretryable_response (m : Nat) (hm : 1 ≤ m)
    (tr : Transport) (path : String) (params : List (String × String))
    (baseUrl : String) (status : Nat) (sc : List String) (b : String)
    (calls : Nat)
    (hresp : ∀ n, tr.outcome n = .response status sc b)
    (hngeo : ¬(status = 451 ∨ status = 403))
    (hn2xx : ¬(200 ≤ status ∧ status ≤ 299))
    (hdecl : status < 500 ∧ status ≠ 429 ∧ status ≠ 408) :
    attemptWithRetries (defaultPolicyWith m) tr path params baseUrl false
        calls =
      if 1 < m then
        .err (.retryLimitExceeded
          ("Moviebox API request failed with status " ++ toString status)
          (m - 1)) (calls + m)
      else
        .err (.httpError
          ("Moviebox API request failed with status " ++ toString status)
          status (buildUrl baseUrl path params)) (calls + m) := by
  have hloop := attemptLoop_default_nonretry_status m tr
    (buildUrl baseUrl path params) baseUrl status sc b hresp hngeo hn2xx
    hdecl m 0 calls none (by omega) (by omega)
  rw [show attemptWithRetries (defaultPolicyWith m) tr path params baseUrl
      false calls =
      attemptLoop (defaultPolicyWith m) tr (buildUrl baseUrl path params)
        baseUrl m false m 0 calls none from rfl]
  rw [hloop]
  simp only [finishAttempts]
  by_cases h1 : 1 < m
  · rw [if_pos (⟨trivial, h1⟩ : True ∧ m > 1), if_pos h1]
    rfl
  · rw [if_neg (show ¬(True ∧ m > 1) from fun hc => h1 hc.2), if_neg h1]

/-- C2, counterexample: under the default policy (three permitted attempts)
a constant 404, which the default response predicate declines, does *not*
terminate the sub-loop with an HTTP error: three transport calls are made
and the terminal outcome is a retry-limit-exceeded error. -/
theorem c2_counterexample :
    attemptWithRetries defaultRetryPolicy tr404 "/resource" [] "https://a/"
        false 0 =
      .err (.retryLimitExceeded
        "Moviebox API request failed with status 404" 2) 3 ∧
    attemptWithRetries defaultRetryPolicy tr404 "/resource" [] "https://a/"
        false 0 ≠
      .err (.httpError "Moviebox API request failed with status 404" 404
        (buildUrl "https://a/" "/resource" [])) 1 := by
  have h : attemptWithRetries defaultRetryPolicy tr404 "/resource" []
      "https://a/" false 0 =
    .err (.retryLimitExceeded
      "Moviebox API request failed with status 404" 2) 3 := rfl
  refine ⟨h, ?_⟩
  intro hcontra
  rw [h] at hcontra
  simp at hcontra

/-- Witness for `c2_amended_nonretryable_response` at `m = 3`, status 404. -/
theorem c2_amended_nonretryable_response_witness :
    attemptWithRetries (defaultPolicyWith 3) tr404 "/resource" [] "https://a/"
        false 0 =
      if 1 < 3 then
        .err (.retryLimitExceeded
          ("Moviebox API request failed with status " ++ toString 404) 2)
          (0 + 3)
      else
        .err (.httpError
          ("Moviebox API request failed with status " ++ toString 404) 404
          (buildUrl "https://a/" "/resource" [])) (0 + 3) :=
  c2_amended_nonretryable_response 3 (by omega) tr404 "/resource" []
    "https://a/" 404 [] "" 0 (fun _ => rfl) (by omega) (by omega)
    ⟨by omega, by omega, by omega⟩

/-! ### Cookie priming (C6, C9) -/

/-- A session whose cookies are initialized answers `ensureSessionCookies`
from the cache: no request, no state change, jar non-emptiness returned. -/
theorem ensureSessionCookies_cached (pol : RetryPolicyM) (tr : Transport)
    (st : SessionState) (calls : Nat) (hinit : st.cookiesInitialized = true) :
    ensureSessionCookies pol tr st calls =
      ⟨.ok (!st.cookieJar.isEmpty), st, calls⟩ := by
  unfold ensureSessionCookies
  rw [if_pos hinit]

/-- A 2xx response on the first attempt makes the retry sub-loop succeed
with exactly one transport call. -/
theorem attemptWithRetries_first_ok (pol : RetryPolicyM) (tr : Transport)
    (path : String) (params : List (String × String)) (baseUrl : String)
    (calls s : Nat) (sc : List String) (b : String)
    (hpol : 1 ≤ pol.maxAttempts)
    (hout : tr.outcome calls = .response s sc b)
    (h2l : 200 ≤ s) (h2h : s ≤ 299) :
    attemptWithRetries pol tr path params baseUrl false calls =
      .ok ⟨s, buildUrl baseUrl path params, sc, b⟩ (calls + 1) := by
  obtain ⟨k, hk⟩ : ∃ k, pol.maxAttempts = k + 1 :=
    ⟨pol.maxAttempts - 1, by omega⟩
  rw [show attemptWithRetries pol tr path params baseUrl false calls =
      attemptLoop pol tr (buildUrl baseUrl path params) baseUrl
        pol.maxAttempts false pol.maxAttempts 0 calls none from rfl]
  rw [hk]
  simp only [attemptLoop, hout]
  rw [if_neg (by omega), if_neg (by omega)]

/-- A successful sub-loop on the head mirror makes the mirror loop succeed
immediately, advancing the cursor to that mirror (advance not suppressed)
and capturing its cookies. -/
theorem mirrorLoop_head_ok (pol : RetryPolicyM) (tr : Transport)
    (path : String) (params : List (String × String)) (srl : Bool)
    (st : SessionState) (idx : Nat) (rest : List Nat)
    (failures : List (String × SessionError)) (calls : Nat) (r : Resp)
    (calls2 : Nat)
    (hatt : attemptWithRetries pol tr path params (st.baseUrls.getD idx "")
        srl calls = .ok r calls2) :
    mirrorLoop pol tr path params false srl true st (idx :: rest) failures
        calls =
      ⟨.ok r, ⟨st.baseUrls, idx, storeCookies st.cookieJar r,
        st.cookiesInitialized⟩, calls2⟩ := by
  simp only [mirrorLoop, hatt]
  simp

/-- A priming call on an uninitialized session whose first transport call
answers 2xx issues exactly one request, marks the session initialized, and
reports jar non-emptiness. -/
theorem ensureSessionCookies_first_ok (pol : RetryPolicyM) (tr : Transport)
    (st : SessionState) (calls s : Nat) (sc : List String) (b : String)
    (hpol : 1 ≤ pol.maxAttempts) (hinit : st.cookiesInitialized = false)
    (hbases : st.baseUrls ≠ []) (hout : tr.outcome calls = .response s sc b)
    (h2l : 200 ≤ s) (h2h : s ≤ 299) :
    ∃ jar2 : List (String × String),
      ensureSessionCookies pol tr st calls =
        ⟨.ok (!jar2.isEmpty),
         ⟨st.baseUrls, st.currentBaseIndex % st.baseUrls.length, jar2, true⟩,
         calls + 1⟩ := by
  obtain ⟨n, hn⟩ : ∃ n, st.baseUrls.length = n + 1 :=
    ⟨st.baseUrls.length - 1, by
      have := List.length_pos.mpr hbases
      omega⟩
  have hrange : List.range st.baseUrls.length =
      0 :: List.map Nat.succ (List.range n) := by
    rw [hn, List.range_succ_eq_map]
  have hatt := attemptWithRetries_first_ok pol tr APP_INFO_PATH
    [("app_name", "moviebox")]
    (st.baseUrls.getD ((st.currentBaseIndex + 0) % st.baseUrls.length) "")
    calls s sc b hpol hout h2l h2h
  have hperf : performRequest pol tr APP_INFO_PATH [("app_name", "moviebox")]
      false false true st calls =
      ⟨.ok ⟨s, buildUrl
          (st.baseUrls.getD
            ((st.currentBaseIndex + 0) % st.baseUrls.length) "")
          APP_INFO_PATH [("app_name", "moviebox")], sc, b⟩,
       ⟨st.baseUrls, (st.currentBaseIndex + 0) % st.baseUrls.length,
        storeCookies st.cookieJar
          ⟨s, buildUrl
            (st.baseUrls.getD
              ((st.currentBaseIndex + 0) % st.baseUrls.length) "")
            APP_INFO_PATH [("app_name", "moviebox")], sc, b⟩,
        st.cookiesInitialized⟩,
       calls + 1⟩ := by
    unfold performRequest
    rw [hrange]
    simp only [List.map_cons]
    exact mirrorLoop_head_ok pol tr APP_INFO_PATH [("app_name", "moviebox")]
      false st _ _ [] calls _ (calls + 1) hatt
  refine ⟨storeCookies st.cookieJar
    ⟨s, buildUrl
      (st.baseUrls.getD ((st.currentBaseIndex + 0) % st.baseUrls.length) "")
      APP_INFO_PATH [("app_name", "moviebox")], sc, b⟩, ?_⟩
  unfold ensureSessionCookies
  rw [if_neg (by simp [hinit])]
  rw [hperf]
  rfl

/-- C9: `ensureSessionCookies` is idempotent. A session whose cookies are
initialized answers with no transport call, no state change, and jar
non-emptiness; and a first call that succeeds on its first attempt issues
exactly one transport call and marks the session initialized, so that the
immediately following call is a pure cache hit — two sequential calls issue
exactly one transport request. -/
theorem c9_idempotent_priming :
    (∀ (pol : RetryPolicyM) (tr : Transport) (st : SessionState)
        (calls : Nat), st.cookiesInitialized = true →
        ensureSessionCookies pol tr st calls =
          ⟨.ok (!st.cookieJar.isEmpty), st, calls⟩) ∧
    (∀ (pol : RetryPolicyM) (tr : Transport) (st : SessionState)
        (calls s : Nat) (sc : List String) (b : String),
        1 ≤ pol.maxAttempts → st.cookiesInitialized = false →
        st.baseUrls ≠ [] → tr.outcome calls = .response s sc b →
        200 ≤ s → s ≤ 299 →
        (ensureSessionCookies pol tr st calls).calls = calls + 1 ∧
        ensureSessionCookies pol tr
            (ensureSessionCookies pol tr st calls).state
            (ensureSessionCookies pol tr st calls).calls =
          ⟨.ok (!(ensureSessionCookies pol tr st
              calls).state.cookieJar.isEmpty),
           (ensureSessionCookies pol tr st calls).state,
           (ensureSessionCookies pol tr st calls).calls⟩) := by
  constructor
  · intro pol tr st calls hinit
    exact ensureSessionCookies_cached pol tr st calls hinit
  · intro pol tr st calls s sc b hpol hinit hbases hout h2l h2h
    obtain ⟨jar2, heq⟩ := ensureSessionCookies_first_ok pol tr st calls s sc b
      hpol hinit hbases hout h2l h2h
    rw [heq]
    exact ⟨rfl, ensureSessionCookies_cached pol tr _ _ rfl⟩

/-- Witness for `c9_idempotent_priming`: a fresh one-mirror session and a
transport answering 200 on the first call. -/
theorem c9_idempotent_priming_witness :
    (ensureSessionCookies defaultRetryPolicy trOk stFresh 0).calls = 0 + 1 ∧
    ensureSessionCookies defaultRetryPolicy trOk
        (ensureSessionCookies defaultRetryPolicy trOk stFresh 0).state
        (ensureSessionCookies defaultRetryPolicy trOk stFresh 0).calls =
      ⟨.ok (!(ensureSessionCookies defaultRetryPolicy trOk stFresh
          0).state.cookieJar.isEmpty),
       (ensureSessionCookies defaultRetryPolicy trOk stFresh 0).state,
       (ensureSessionCookies defaultRetryPolicy trOk stFresh 0).calls⟩ :=
  c9_idempotent_priming.2 defaultRetryPolicy trOk stFresh 0 200 [] ""
    (by decide) rfl (by decide) rfl (by decide) (by decide)

/-- C6, counterexample: the priming request of `ensureSessionCookies` does
*not* suppress mirror advance. With a fresh two-mirror session whose cursor
is 0, a transport whose first call fails and whose second call succeeds
makes priming succeed via mirror index 1, and the cursor afterwards is 1,
not the 0 it held before the call. -/
theorem c6_counterexample :
    stTwoMirrors.currentBaseIndex = 0 ∧
    (ensureSessionCookies polOneAttempt trPrimeSecond stTwoMirrors
        0).result = .ok true ∧
    (ensureSessionCookies polOneAttempt trPrimeSecond stTwoMirrors
        0).state.currentBaseIndex = 1 :=
  ⟨rfl, rfl, rfl⟩

/-- C6, amended: `ensureSessionCookies` passes `skipMirrorAdvance: false`,
so after a priming request that fails over to another mirror and succeeds
there, the cursor *advances* to the serving mirror index; apart from the
cursor, only the cookie jar and the `cookiesInitialized` flag change. -/
theorem c6_amended (pol : RetryPolicyM) (tr : Transport) (st : SessionState)
    (calls : Nat) (hinit : st.cookiesInitialized = false)
    (hlen : st.baseUrls.length = 2) (hcur : st.currentBaseIndex = 0)
    (e : SessionError) (calls1 : Nat) (r : Resp) (calls2 : Nat)
    (h0 : attemptWithRetries pol tr APP_INFO_PATH [("app_name", "moviebox")]
        (st.baseUrls.getD 0 "") false calls = .err e calls1)
    (hgeo : e.isGeoBlocked = false)
    (h1 : attemptWithRetries pol tr APP_INFO_PATH [("app_name", "moviebox")]
        (st.baseUrls.getD 1 "") false calls1 = .ok r calls2) :
    ensureSessionCookies pol tr st calls =
      ⟨.ok (!(storeCookies st.cookieJar r).isEmpty),
       ⟨st.baseUrls, 1, storeCookies st.cookieJar r, true⟩, calls2⟩ := by
  have hpend : (List.range st.baseUrls.length).map
      (fun off => (st.currentBaseIndex + off) % st.baseUrls.length) =
      [0, 1] := by
    rw [hlen, hcur]
    rfl
  have hperf : performRequest pol tr APP_INFO_PATH [("app_name", "moviebox")]
      false false true st calls =
      ⟨.ok r, ⟨st.baseUrls, 1, storeCookies st.cookieJar r,
        st.cookiesInitialized⟩, calls2⟩ := by
    unfold performRequest
    rw [hpend]
    simp only [mirrorLoop, h0, hgeo, Bool.false_eq_true, if_false, h1]
    simp
  unfold ensureSessionCookies
  rw [if_neg (by simp [hinit])]
  rw [hperf]

/-- Witness for `c6_amended`: concrete two-mirror session, first mirror
throws, second serves 200 with a `Set-Cookie`. -/
theorem c6_amended_witness :
    ensureSessionCookies polOneAttempt trPrimeSecond stTwoMirrors 0 =
      ⟨.ok (!(storeCookies stTwoMirrors.cookieJar respPrime).isEmpty),
       ⟨stTwoMirrors.baseUrls, 1, storeCookies stTwoMirrors.cookieJar
          respPrime, true⟩, 2⟩ :=
  c6_amended polOneAttempt trPrimeSecond stTwoMirrors 0 rfl rfl rfl
    (.netError "down") 1 respPrime 2 rfl rfl rfl

/-! ### Header-record lemmas (JS object spread semantics) -/

theorem recordGet_append (m l : List (String × String)) (k : String) :
    recordGet (m ++ l) k =
      match recordGet l k with
      | some v => some v
      | none => recordGet m k := by
  induction m with
  | nil => cases h : recordGet l k <;> simp [recordGet, h]
  | cons p ps ih =>
    simp only [List.cons_append, recordGet]
    have ih2 : recordGet (List.append ps l) k =
        match recordGet l k with
        | some v => some v
        | none => recordGet ps k := ih
    rw [ih2]
    cases hl : recordGet l k with
    | some v => rfl
    | none => rfl

theorem recordGet_map_set_none (ps : List (String × String)) (k v : String)
    (h : ps.any (fun q => q.1 == k) = false) :
    recordGet (ps.map (fun p => if p.1 == k then (k, v) else p)) k = none := by
  induction ps with
  | nil => rfl
  | cons q qs ih =>
    simp only [List.any_cons, Bool.or_eq_false_iff] at h
    simp only [List.map_cons, recordGet, ih h.2]
    simp [h.1]

theorem recordGet_map_set_some (m : List (String × String)) (k v : String)
    (h : m.any (fun q => q.1 == k) = true) :
    recordGet (m.map (fun p => if p.1 == k then (k, v) else p)) k = some v := by
  induction m with
  | nil => simp at h
  | cons p ps ih =>
    simp only [List.map_cons, recordGet]
    by_cases hps : ps.any (fun q => q.1 == k) = true
    · rw [ih hps]
    · have hps2 : ps.any (fun q => q.1 == k) = false := by
        cases hb : ps.any (fun q => q.1 == k) with
        | false => rfl
        | true => exact absurd hb hps
      rw [recordGet_map_set_none ps k v hps2]
      simp only [List.any_cons, Bool.or_eq_true_iff] at h
      have hp : (p.1 == k) = true := by
        rcases h with h | h
        · exact h
        · exact absurd h hps
      rw [if_pos hp]
      simp

theorem recordGet_assocSet_same (m : List (String × String)) (k v : String) :
    recordGet (assocSet m k v) k = some v := by
  unfold assocSet
  by_cases h : m.any (fun p => p.1 == k) = true
  · rw [if_pos h]
    exact recordGet_map_set_some m k v h
  · rw [if_neg h]
    rw [recordGet_append]
    simp [recordGet]

theorem recordGet_map_set_other (m : List (String × String)) (a b k : String)
    (hne : (a == k) = false) :
    recordGet (m.map (fun p => if p.1 == a then (a, b) else p)) k =
      recordGet m k := by
  induction m with
  | nil => rfl
  | cons p ps ih =>
    simp only [List.map_cons, recordGet, ih]
    cases recordGet ps k
    · by_cases hp : (p.1 == a) = true
      · rw [if_pos hp]
        have hpk : (p.1 == k) = false := by
          have := eq_of_beq hp
          subst this
          exact hne
        simp [hne, hpk]
      · rw [if_neg hp]
    · rfl

theorem recordGet_assocSet_other (m : List (String × String)) (a b k : String)
    (hne : (a == k) = false) :
    recordGet (assocSet m a b) k = recordGet m k := by
  unfold assocSet
  by_cases h : m.any (fun p => p.1 == a) = true
  · rw [if_pos h]
    exact recordGet_map_set_other m a b k hne
  · rw [if_neg h]
    rw [recordGet_append]
    simp [recordGet, hne]

theorem recordGet_spread_none (base overlay : List (String × String))
    (k : String) (h : recordGet overlay k = none) :
    recordGet (spreadInto base overlay) k = recordGet base k := by
  induction overlay generalizing base with
  | nil => rfl
  | cons p ps ih =>
    simp only [recordGet] at h
    cases hps : recordGet ps k with
    | some w => rw [hps] at h; simp at h
    | none =>
      rw [hps] at h
      have hne : (p.1 == k) = false := by
        by_cases hp : (p.1 == k) = true
        · rw [if_pos hp] at h; simp at h
        · simpa using hp
      show recordGet (spreadInto (assocSet base p.1 p.2) ps) k = recordGet base k
      rw [ih (assocSet base p.1 p.2) hps]
      exact recordGet_assocSet_other base p.1 p.2 k hne

theorem recordGet_spread_some (base overlay : List (String × String))
    (k v : String) (h : recordGet overlay k = some v) :
    recordGet (spreadInto base overlay) k = some v := by
  induction overlay generalizing base with
  | nil => simp [recordGet] at h
  | cons p ps ih =>
    simp only [recordGet] at h
    cases hps : recordGet ps k with
    | some w =>
      rw [hps] at h
      have hw : w = v := by simpa using h
      subst hw
      show recordGet (spreadInto (assocSet base p.1 p.2) ps) k = some w
      exact ih (assocSet base p.1 p.2) hps
    | none =>
      rw [hps] at h
      by_cases hp : (p.1 == k) = true
      · rw [if_pos hp] at h
        have hv : p.2 = v := by simpa using h
        have hk := eq_of_beq hp
        show recordGet (spreadInto (assocSet base p.1 p.2) ps) k = some v
        rw [recordGet_spread_none (assocSet base p.1 p.2) ps k hps]
        rw [hk, hv]
        exact recordGet_assocSet_same base k v
      · rw [if_neg hp] at h
        simp at h

/-- With the default download headers and no caller `Range` header, every
chunk request carries the engine-computed `Range` value. -/
theorem recordGet_chunkHeaders_default (user : List (String × String))
    (r : ByteRange) (hnorange : recordGet user "Range" = none) :
    recordGet (chunkRequestHeaders (spreadInto DOWNLOAD_HEADERS user) r)
        "Range" =
      some ("bytes=" ++ toString r.start ++ "-" ++ toString r.stop) := by
  have hdh : recordGet (spreadInto DOWNLOAD_HEADERS user) "Range" = none := by
    rw [recordGet_spread_none _ _ _ hnorange]
    rfl
  unfold chunkRequestHeaders
  rw [recordGet_spread_none _ _ _ hdh]
  rfl

/-- Every chunk request in the worker trace either was already in the
accumulator or carries the merged chunk headers of some range. -/
theorem runChunkQueue_headers (tr : Transport) (url : String)
    (dh : List (String × String)) :
    ∀ (ranges : List ByteRange) (calls : Nat) (acc : List ChunkRequest)
      (req : ChunkRequest),
      req ∈ (runChunkQueue tr url dh ranges calls acc).2.2 →
      req ∈ acc ∨ ∃ r, req = ⟨url, chunkRequestHeaders dh r⟩ := by
  intro ranges
  induction ranges with
  | nil =>
    intro calls acc req hreq
    exact Or.inl hreq
  | cons r rest ih =>
    intro calls acc req hreq
    cases hout : tr.outcome calls with
    | response status sc b =>
      simp only [runChunkQueue, hout] at hreq
      by_cases hbad : status ≠ 206 ∧ status ≠ 200
      · rw [if_pos hbad] at hreq
        simp only [List.mem_append, List.mem_singleton] at hreq
        rcases hreq with hreq | hreq
        · exact Or.inl hreq
        · exact Or.inr ⟨r, hreq⟩
      · rw [if_neg hbad] at hreq
        rcases ih (calls + 1) (acc ++ [⟨url, chunkRequestHeaders dh r⟩]) req
            hreq with hin | hnew
        · simp only [List.mem_append, List.mem_singleton] at hin
          rcases hin with hin | hin
          · exact Or.inl hin
          · exact Or.inr ⟨r, hin⟩
        · exact Or.inr hnew
    | netError msg =>
      simp only [runChunkQueue, hout] at hreq
      simp only [List.mem_append, List.mem_singleton] at hreq
      rcases hreq with hreq | hreq
      · exact Or.inl hreq
      · exact Or.inr ⟨r, hreq⟩

/-- When every transport call answers 206, the worker trace issues exactly
one request per planned range, in order. -/
theorem runChunkQueue_all_ok (tr : Transport) (url : String)
    (dh : List (String × String))
    (h206 : ∀ n, tr.outcome n = .response 206 [] "") :
    ∀ (ranges : List ByteRange) (calls : Nat) (acc : List ChunkRequest),
      runChunkQueue tr url dh ranges calls acc =
        (.ok (), calls + ranges.length,
         acc ++ ranges.map (fun r => ⟨url, chunkRequestHeaders dh r⟩)) := by
  intro ranges
  induction ranges with
  | nil => intro calls acc; simp [runChunkQueue]
  | cons r rest ih =>
    intro calls acc
    simp only [runChunkQueue, h206 calls]
    rw [if_neg (by simp)]
    rw [ih]
    simp only [List.length_cons, List.map_cons, Prod.mk.injEq, true_and]
    constructor
    · omega
    · simp

/-! ### Download engine claims (C1, C7, C10) -/

/-- Every possible output of `downloadMediaFile` either issued no chunk
request at all, or its chunk request trace is a worker-queue run over the
merged download headers. -/
theorem downloadMediaFile_chunkRequests (pol : RetryPolicyM) (tr : Transport)
    (st : SessionState) (calls : Nat) (optionUrl : Option String)
    (sizeBytes : Option Nat) (existingSize : Nat) (mode : DownloadMode)
    (chunkSizeOpt : Option Nat) (userHeaders : List (String × String))
    (out : DownloadOut)
    (hrun : downloadMediaFile pol tr st calls optionUrl sizeBytes
        existingSize mode chunkSizeOpt userHeaders = some out) :
    out.chunkRequests = [] ∨
    ∃ (url : String) (ranges : List ByteRange) (cc : Nat),
      out.chunkRequests =
        (runChunkQueue tr url (spreadInto DOWNLOAD_HEADERS userHeaders)
          ranges cc []).2.2 := by
  cases optionUrl with
  | none =>
    simp only [downloadMediaFile] at hrun
    cases hrun
    exact Or.inl rfl
  | some url =>
    simp only [downloadMediaFile] at hrun
    repeat' split at hrun
    all_goals
      first
        | (cases hrun; exact Or.inl rfl)
        | (cases hrun; exact Or.inr ⟨url, _, _, rfl⟩)
        | (exact absurd hrun (by simp))

/-- C10: in each chunk request the user-supplied headers are spread *after*
the computed `Range` header (`{ Range: ..., ...downloadHeaders }` with
`downloadHeaders = {...DOWNLOAD_HEADERS, ...userHeaders}`), so a caller
header literally named `Range` replaces the engine-computed per-chunk value
in every outgoing chunk request of the download. -/
theorem c10_user_range_header_wins (pol : RetryPolicyM) (tr : Transport)
    (st : SessionState) (calls : Nat) (optionUrl : Option String)
    (sizeBytes : Option Nat) (existingSize : Nat) (mode : DownloadMode)
    (chunkSizeOpt : Option Nat) (userHeaders : List (String × String))
    (v : String) (out : DownloadOut)
    (huser : recordGet userHeaders "Range" = some v)
    (hrun : downloadMediaFile pol tr st calls optionUrl sizeBytes
        existingSize mode chunkSizeOpt userHeaders = some out) :
    ∀ req ∈ out.chunkRequests, recordGet req.headers "Range" = some v := by
  intro req hreq
  rcases downloadMediaFile_chunkRequests pol tr st calls optionUrl sizeBytes
      existingSize mode chunkSizeOpt userHeaders out hrun with
    hnil | ⟨url, ranges, cc, hreqs⟩
  · rw [hnil] at hreq
    simp at hreq
  · rw [hreqs] at hreq
    rcases runChunkQueue_headers tr url _ ranges cc [] req hreq with
      hin | ⟨r, hr⟩
    · simp at hin
    · rw [hr]
      show recordGet (chunkRequestHeaders
        (spreadInto DOWNLOAD_HEADERS userHeaders) r) "Range" = some v
      unfold chunkRequestHeaders
      exact recordGet_spread_some _ _ _ _
        (recordGet_spread_some _ _ _ _ huser)

/-- Witness for `c10_user_range_header_wins`: a concrete auto-mode download
whose caller supplies `Range: bytes=0-3`; the single issued chunk request
carries that value instead of the computed `bytes=0-9`. -/
theorem c10_user_range_header_wins_witness :
    recordGet [("Range", "bytes=0-3"),
      ("Referer", "https://fmoviesunblocked.net/")] "Range" =
      some "bytes=0-3" :=
  c10_user_range_header_wins defaultRetryPolicy tr206 stInit 0
    (some "https://cdn/x.mp4") (some 10) 4 .auto (some 3)
    [("Range", "bytes=0-3")] "bytes=0-3"
    ⟨.ok (), stInit, 1,
      [⟨"https://cdn/x.mp4",
        [("Range", "bytes=0-3"),
         ("Referer", "https://fmoviesunblocked.net/")]⟩]⟩
    rfl rfl
    ⟨"https://cdn/x.mp4",
      [("Range", "bytes=0-3"),
       ("Referer", "https://fmoviesunblocked.net/")]⟩
    (by simp)

/-- C7, counterexample: mode `auto` with existing size equal to the known
total returns immediately and issues no chunk request, but on a session
whose cookies are not yet initialized it still issues one transport call —
the cookie-priming request runs before the short-circuit size check — so the
claim of *zero* transport calls fails. -/
theorem c7_counterexample :
    downloadMediaFile defaultRetryPolicy trOk stFresh 0
        (some "https://cdn/x.mp4") (some 10) 10 .auto (some 3) [] =
      some ⟨.ok (), ⟨["https://a/"], 0, [], true⟩, 1, []⟩ ∧
    Option.map DownloadOut.calls
        (downloadMediaFile defaultRetryPolicy trOk stFresh 0
          (some "https://cdn/x.mp4") (some 10) 10 .auto (some 3) []) ≠
      some 0 := by
  refine ⟨rfl, ?_⟩
  intro hcontra
  simp at hcontra
  obtain ⟨a, ha, hc⟩ := hcontra
  rw [show downloadMediaFile defaultRetryPolicy trOk stFresh 0
      (some "https://cdn/x.mp4") (some 10) 10 .auto (some 3) [] =
      some ⟨.ok (), ⟨["https://a/"], 0, [], true⟩, 1, []⟩ from rfl] at ha
  cases ha
  exact absurd hc (by decide)

/-- C7, amended: mode `auto` with existing size at or above the known total
issues zero chunk (range) requests and returns successfully right after the
cookie-priming step; the transport is untouched exactly when the session
cookies are already initialized (otherwise the only transport traffic is the
priming request itself). -/
theorem c7_amended (pol : RetryPolicyM) (tr : Transport) (st : SessionState)
    (calls : Nat) (url : String) (t existing : Nat) (chunkOpt : Option Nat)
    (user : List (String × String)) (hge : t ≤ existing) :
    (∀ out, downloadMediaFile pol tr st calls (some url) (some t) existing
        .auto chunkOpt user = some out → out.chunkRequests = []) ∧
    (st.cookiesInitialized = true →
      downloadMediaFile pol tr st calls (some url) (some t) existing .auto
          chunkOpt user = some ⟨.ok (), st, calls, []⟩) := by
  have hauto : autoComplete (some t)
      (if (DownloadMode.auto = DownloadMode.overwrite) then 0 else existing) =
      true := by
    simp [autoComplete]
    omega
  constructor
  · intro out hrun
    simp only [downloadMediaFile] at hrun
    split at hrun
    · cases hrun
      rfl
    · rw [if_neg (by simp)] at hrun
      rw [if_pos ⟨trivial, hauto⟩] at hrun
      cases hrun
      rfl
  · intro hinit
    simp only [downloadMediaFile, ensureSessionCookies_cached pol tr st calls
      hinit]
    rw [if_neg (by simp)]
    rw [if_pos ⟨trivial, hauto⟩]

/-- Witness for `c7_amended` on a primed one-mirror session. -/
theorem c7_amended_witness :
    (∀ out, downloadMediaFile defaultRetryPolicy trOk stInit 0
        (some "https://cdn/x.mp4") (some 10) 10 .auto (some 3) [] =
        some out → out.chunkRequests = []) ∧
    (stInit.cookiesInitialized = true →
      downloadMediaFile defaultRetryPolicy trOk stInit 0
          (some "https://cdn/x.mp4") (some 10) 10 .auto (some 3) [] =
        some ⟨.ok (), stInit, 0, []⟩) :=
  c7_amended defaultRetryPolicy trOk stInit 0 "https://cdn/x.mp4" 10 10
    (some 3) [] (by decide)

/-- C1, counterexample: mode `auto` with 4 of 10 bytes already present does
*not* start the download at offset 4. The start offset is computed as
`mode === 'resume' ? existingSize : 0`, so in auto mode it is 0: the single
planned range request asks for `bytes=0-9`, re-requesting bytes [0,4). -/
theorem c1_counterexample :
    downloadMediaFile defaultRetryPolicy tr206 stInit 0
        (some "https://cdn/x.mp4") (some 10) 4 .auto (some 3) [] =
      some ⟨.ok (), stInit, 1,
        [⟨"https://cdn/x.mp4",
          [("Range", "bytes=0-9"),
           ("Referer", "https://fmoviesunblocked.net/")]⟩]⟩ ∧
    startOffsetFor .auto 4 = 0 ∧ (0 : Nat) ≠ 4 :=
  ⟨rfl, rfl, by decide⟩

/-- C1, amended: the engine uses the existing file size as start offset only
in `resume` mode; in `auto` mode (not short-circuited, existing < total) the
start offset is 0 and the issued chunk requests tile `[0, totalSize)` — the
already-present prefix is requested again. -/
theorem c1_amended (pol : RetryPolicyM) (tr : Transport) (st : SessionState)
    (calls : Nat) (url : String) (t existing : Nat) (chunkOpt : Option Nat)
    (user : List (String × String))
    (h206 : ∀ n, tr.outcome n = .response 206 [] "")
    (hlt : existing < t) (hinit : st.cookiesInitialized = true)
    (hnorange : recordGet user "Range" = none) :
    startOffsetFor .auto existing = 0 ∧
    startOffsetFor .resume existing = existing ∧
    ∃ out, downloadMediaFile pol tr st calls (some url) (some t) existing
        .auto chunkOpt user = some out ∧
      out.chunkRequests.map (fun req => recordGet req.headers "Range") =
        (buildRanges 0 t
            (max (256 * 1024) (chunkOpt.getD DEFAULT_CHUNK_SIZE))).map
          (fun r =>
            some ("bytes=" ++ toString r.start ++ "-" ++ toString r.stop)) := by
  refine ⟨rfl, by simp [startOffsetFor], ?_⟩
  simp only [downloadMediaFile, ensureSessionCookies_cached pol tr st calls
    hinit]
  rw [if_neg (by simp)]
  rw [if_neg (by
    rintro ⟨-, hc⟩
    simp [autoComplete] at hc
    omega)]
  simp only [startOffsetFor, if_neg (by simp : ¬(DownloadMode.auto =
    DownloadMode.resume)), if_neg (by simp : ¬(DownloadMode.auto =
    DownloadMode.overwrite))]
  by_cases hrg : buildRanges 0 t
      (max (256 * 1024) (chunkOpt.getD DEFAULT_CHUNK_SIZE)) = []
  · rw [if_pos hrg]
    exact ⟨_, rfl, by simp [hrg]⟩
  · rw [if_neg hrg]
    rw [runChunkQueue_all_ok tr url _ h206]
    refine ⟨_, rfl, ?_⟩
    simp only [List.nil_append, List.map_map]
    apply List.map_congr_left
    intro r _
    exact recordGet_chunkHeaders_default user r hnorange

/-- Witness for `c1_amended`: 4 of 10 bytes present, auto mode — the single
chunk request carries `Range: bytes=0-9`. -/
theorem c1_amended_witness :
    startOffsetFor .auto 4 = 0 ∧
    startOffsetFor .resume 4 = 4 ∧
    ∃ out, downloadMediaFile defaultRetryPolicy tr206 stInit 0
        (some "https://cdn/x.mp4") (some 10) 4 .auto (some 3) [] =
        some out ∧
      out.chunkRequests.map (fun req => recordGet req.headers "Range") =
        (buildRanges 0 10 (max (256 * 1024) ((some 3).getD
            DEFAULT_CHUNK_SIZE))).map
          (fun r =>
            some ("bytes=" ++ toString r.start ++ "-" ++ toString r.stop)) :=
  c1_amended defaultRetryPolicy tr206 stInit 0 "https://cdn/x.mp4" 10 4
    (some 3) [] (fun _ => rfl) (by decide) rfl rfl

end MovieboxSdk
